import Mathlib

/-!
# Verification of the life-track-pro budget / savings / analytics core

Shallow embedding, in Lean 4, of the aggregation core of the repository:

* `src/features/budget/budget.service.ts` (budget engine),
* `src/features/savings/savings.service.ts` and the savings goal model
  pre-save hook (savings goals and milestone notifications),
* the expense analytics service (`getExpenseStats`, `getDailyExpenses`).

JavaScript `number` amounts are modelled as rationals (`ℚ`), JavaScript
`Date` values as a civil date-time record ordered by a positional key
(for normalized dates, timestamp order coincides with lexicographic
field order, which the key realizes).  Database lookups (`findOne`,
`$match`/`$group` aggregations) are modelled as list operations over the
per-user records.  Thrown service errors become an explicit error type.
-/

namespace LifeTrack

/-- A civil date-time.  `month` is 0-based (as in JavaScript `Date`):
January = 0, ..., December = 11. -/
structure DateTime where
  year : ℕ
  month : ℕ
  day : ℕ
  hour : ℕ
  minute : ℕ
  second : ℕ
  ms : ℕ
deriving DecidableEq, Repr

/-- Gregorian leap-year test (what `new Date(y, 1, 29)` normalization
amounts to). -/
def isLeapYear (y : ℕ) : Bool :=
  (y % 4 == 0 && y % 100 != 0) || y % 400 == 0

/-- Number of days of month `m` (0-based) of year `y`; the value JavaScript
produces for `new Date(y, m + 1, 0).getDate()`. -/
def daysInMonth (y m : ℕ) : ℕ :=
  if m == 1 then (if isLeapYear y then 29 else 28)
  else if m == 3 || m == 5 || m == 8 || m == 10 then 30
  else 31

/-- Positional encoding of a date-time.  Every multiplier strictly dominates
the maximal value of the lower-order fields (day ≤ 31 < 32, month ≤ 11 < 12,
hour ≤ 23, minute, second ≤ 59, ms ≤ 999), so on valid date-times `key`
ordering coincides with chronological (JavaScript timestamp) ordering. -/
def DateTime.key (d : DateTime) : ℕ :=
  (((((d.year * 12 + d.month) * 32 + d.day) * 24 + d.hour) * 60
      + d.minute) * 60 + d.second) * 1000 + d.ms

/-- Field-range validity of a civil date-time (what an actual normalized
JavaScript `Date` satisfies). -/
def validDT (d : DateTime) : Bool :=
  1 ≤ d.day && d.day ≤ daysInMonth d.year d.month && d.month ≤ 11 &&
    d.hour ≤ 23 && d.minute ≤ 59 && d.second ≤ 59 && d.ms ≤ 999

/-- Rounding used throughout: `Math.round(q * 100) / 100` rounds to 2 decimals, half-up at the 2nd
decimal (JavaScript `Math.round` rounds a half up, i.e. `⌊x + 1/2⌋`). -/
def round2 (q : ℚ) : ℚ :=
  (⌊q * 100 + 1 / 2⌋ : ℤ) / 100

/-- Service-level operational errors (`error.util.ts`). -/
inductive Err where
  | notFound (msg : String)
  | badRequest (msg : String)
deriving DecidableEq, Repr

/-- A `Category` document (category model): fields relevant to the budget
engine.  `monthlyBudget` is `none` for `null`/unset. -/
structure Category where
  id : ℕ
  userId : ℕ
  name : String
  icon : String
  color : String
  monthlyBudget : Option ℚ
deriving DecidableEq, Repr

/-- An `Expense` document: fields relevant to the aggregations. -/
structure Expense where
  userId : ℕ
  categoryId : ℕ
  amount : ℚ
  date : DateTime
deriving DecidableEq, Repr

/-- Budget status classification. -/
inductive BStatus where
  | safe
  | warning
  | exceeded
deriving DecidableEq, Repr

/-- The `BudgetStatus` result record of `budget.service.ts`. -/
structure BudgetStatus where
  categoryId : ℕ
  categoryName : String
  categoryColor : String
  categoryIcon : String
  budget : ℚ
  spent : ℚ
  remaining : ℚ
  percentage : ℚ
  status : BStatus
  color : String
deriving DecidableEq, Repr

/-- The `BudgetSummary` result record of `budget.service.ts`. -/
structure BudgetSummary where
  totalBudget : ℚ
  totalSpent : ℚ
  totalRemaining : ℚ
  overallPercentage : ℚ
  categoriesWithBudget : ℕ
  categoriesOverBudget : ℕ
  categories : List BudgetStatus
deriving DecidableEq, Repr

/-- JavaScript falsiness of an optional number, as in
`if (!category.monthlyBudget)`: `null`/`undefined` and `0` are falsy. -/
def jsFalsy : Option ℚ → Bool
  | none => true
  | some b => b == 0

/-- Start of the current-month window, `getCurrentMonthRange().startOfMonth`:
`new Date(y, m, 1)` — first day of the current month at 00:00:00.000. -/
def startOfMonth (now : DateTime) : DateTime :=
  ⟨now.year, now.month, 1, 0, 0, 0, 0⟩

/-- End of the current-month window, `getCurrentMonthRange().endOfMonth`:
`new Date(y, m + 1, 0, 23, 59, 59)` — last day of the current month at
23:59:59.000 (the milliseconds argument is omitted, hence 0). -/
def endOfMonth (now : DateTime) : DateTime :=
  ⟨now.year, now.month, daysInMonth now.year now.month, 23, 59, 59, 0⟩

/-- The `$match` date condition of the budget engine:
`date: { $gte: startOfMonth, $lte: endOfMonth }`. -/
def inCurrentMonthWindow (now d : DateTime) : Bool :=
  (startOfMonth now).key ≤ d.key && d.key ≤ (endOfMonth now).key

/-- The `$match`+`$group` aggregation summing the matching user expense amounts
for one category inside the current-month window. -/
def monthSpent (expenses : List Expense) (uid cid : ℕ)
    (now : DateTime) : ℚ :=
  ((expenses.filter (fun e =>
      e.userId == uid && e.categoryId == cid &&
        inCurrentMonthWindow now e.date)).map (·.amount)).sum

/-- Status from the raw (unrounded) percentage: `>= 100` exceeded,
`>= 80` warning, else safe. -/
def statusOf (p : ℚ) : BStatus :=
  if 100 ≤ p then .exceeded else if 80 ≤ p then .warning else .safe

/-- Color of each status (fixed palette). -/
def colorOf (p : ℚ) : String :=
  if 100 ≤ p then "#E74C3C" else if 80 ≤ p then "#F39C12" else "#27AE60"

/-- Assembling one `BudgetStatus` record from a category and its month
spend, exactly as both `getCategoryBudgetStatus` and `getBudgetSummary`
do: raw percentage (`0` when budget is not positive) drives status and
color, and the stored percentage is rounded to 2 decimals. -/
def mkBudgetStatus (c : Category) (spent : ℚ) : BudgetStatus :=
  let budget := c.monthlyBudget.getD 0
  let percentage := if 0 < budget then spent / budget * 100 else 0
  ⟨c.id, c.name, c.color, c.icon, budget, spent, budget - spent,
    round2 percentage, statusOf percentage, colorOf percentage⟩

deriving instance DecidableEq for Except

/-- Full outcome of `getCategoryBudgetStatus`, separating the value
returned to the caller from the fire-and-forget side effects:
`alerts` records each `sendBudgetAlert(userId, name, percentage)`
dispatch attempted, and `logged` the `console.error` entries produced
when the dispatch promise rejects (the `.catch` handler). -/
structure BudgetOutcome where
  result : Except Err BudgetStatus
  alerts : List (String × ℚ)
  logged : List String
deriving DecidableEq, Repr

/-- Operation `getCategoryBudgetStatus(userId, categoryId)` of `budget.service.ts`.
`dispatchFails` says whether the `sendBudgetAlert` promise (if any)
rejects; the `findOne({_id, userId})` lookup is a `find?` over the
category collection. -/
def getCategoryBudgetStatusFull (dispatchFails : Bool)
    (cats : List Category) (expenses : List Expense) (uid cid : ℕ)
    (now : DateTime) : BudgetOutcome :=
  match cats.find? (fun c => c.id == cid && c.userId == uid) with
  | none => ⟨.error (.notFound "Category not found"), [], []⟩
  | some category =>
    if jsFalsy category.monthlyBudget then
      ⟨.error (.notFound "Category has no budget set"), [], []⟩
    else
      let spent := monthSpent expenses uid cid now
      let budget := category.monthlyBudget.getD 0
      let percentage := if 0 < budget then spent / budget * 100 else 0
      ⟨.ok (mkBudgetStatus category spent),
        if 80 ≤ percentage then [(category.name, percentage)] else [],
        if 80 ≤ percentage ∧ dispatchFails then
          ["Failed to send budget alert"] else []⟩

/-- The all-zero summary returned when the user has no budgeted category. -/
def emptySummary : BudgetSummary :=
  ⟨0, 0, 0, 0, 0, 0, []⟩

/-- The `monthlyBudget: { $ne: null, $gt: 0 }` filter of
`getBudgetSummary`. -/
def hasPositiveBudget (uid : ℕ) (c : Category) : Bool :=
  c.userId == uid &&
    (match c.monthlyBudget with
     | some b => decide (0 < b)
     | none => false)

/-- Operation `getBudgetSummary(userId)` of `budget.service.ts`: statuses for every
category with a positive budget (spends from one grouped aggregation),
totals reduced over them, list sorted by (rounded) percentage
descending.  Total function: it never throws. -/
def getBudgetSummary (cats : List Category) (expenses : List Expense)
    (uid : ℕ) (now : DateTime) : BudgetSummary :=
  let budgeted := cats.filter (hasPositiveBudget uid)
  if budgeted.isEmpty then emptySummary
  else
    let statuses := budgeted.map (fun c =>
      mkBudgetStatus c (monthSpent expenses uid c.id now))
    let totalBudget := (statuses.map (·.budget)).sum
    let totalSpent := (statuses.map (·.spent)).sum
    let overallPercentage :=
      if 0 < totalBudget then totalSpent / totalBudget * 100 else 0
    ⟨totalBudget, totalSpent, totalBudget - totalSpent,
      round2 overallPercentage,
      budgeted.length,
      (statuses.filter (fun s => s.status == BStatus.exceeded)).length,
      statuses.mergeSort (fun a b => decide (b.percentage ≤ a.percentage))⟩

/-! ## Expense analytics engine (`getExpenseStats`, `getDailyExpenses`) -/

/-- Start of the last-month window, `new Date(y, m - 1, 1)`: first day of the previous month (January
normalizes to December of the previous year). -/
def startOfLastMonth (now : DateTime) : DateTime :=
  if now.month == 0 then ⟨now.year - 1, 11, 1, 0, 0, 0, 0⟩
  else ⟨now.year, now.month - 1, 1, 0, 0, 0, 0⟩

/-- End of the last-month window, `new Date(y, m, 0)`: day 0 of the current month, i.e. the last day of
the previous month — at 00:00:00.000, since no time fields are given. -/
def endOfLastMonth (now : DateTime) : DateTime :=
  if now.month == 0 then
    ⟨now.year - 1, 11, daysInMonth (now.year - 1) 11, 0, 0, 0, 0⟩
  else ⟨now.year, now.month - 1, daysInMonth now.year (now.month - 1),
    0, 0, 0, 0⟩

/-- The `getExpenseStats` `thisMonth` facet: sum of the matching user expense amounts
with `date >= startOfMonth` (no upper bound). -/
def thisMonthTotal (expenses : List Expense) (uid : ℕ)
    (now : DateTime) : ℚ :=
  ((expenses.filter (fun e =>
      e.userId == uid && (startOfMonth now).key ≤ e.date.key)).map
        (·.amount)).sum

/-- The `getExpenseStats` `lastMonth` facet: sum of the matching user expense amounts
with `date` in `[startOfLastMonth, endOfLastMonth]`. -/
def lastMonthTotal (expenses : List Expense) (uid : ℕ)
    (now : DateTime) : ℚ :=
  ((expenses.filter (fun e =>
      e.userId == uid && (startOfLastMonth now).key ≤ e.date.key &&
        e.date.key ≤ (endOfLastMonth now).key)).map (·.amount)).sum

/-- The `getExpenseStats` field `comparison.percentageChange`:
`result.lastMonth[0]?.total ? ((this - last) / last) * 100 : 0` — the
ternary takes the 0 branch exactly when the last-month total is absent
or 0 (JavaScript falsiness). -/
def percentageChange (expenses : List Expense) (uid : ℕ)
    (now : DateTime) : ℚ :=
  let this := thisMonthTotal expenses uid now
  let last := lastMonthTotal expenses uid now
  if last == 0 then 0 else (this - last) / last * 100

/-- Group key of the `$dateToString` (format `%Y-%m-%d`) grouping: one value per
calendar day, ordered like the formatted string. -/
def dayKey (d : DateTime) : ℕ :=
  (d.year * 12 + d.month) * 32 + d.day

/-- The `$match` predicate of `getDailyExpenses`:
`userId` and `date: { $gte: startDate }` (no upper bound). -/
def dayMatched (uid : ℕ) (start : DateTime) (e : Expense) : Bool :=
  e.userId == uid && start.key ≤ e.date.key

/-- One output row of `getDailyExpenses`: `{date, total, count}` with the
date as its day key. -/
structure DailyRow where
  date : ℕ
  total : ℚ
  count : ℕ
deriving DecidableEq, Repr

/-- Operation `getDailyExpenses(userId, days)` of the expense service: match the
trailing window (the source computes `startDate` as now minus `days`
days, time of day preserved; the model takes that resulting instant as
the parameter `start`), group by calendar day, sort by the day string
ascending, and emit one `{date, total, count}` row per group. -/
def getDailyExpenses (expenses : List Expense) (uid : ℕ)
    (start : DateTime) : List DailyRow :=
  let matched := expenses.filter (dayMatched uid start)
  let keys := ((matched.map (fun e => dayKey e.date)).dedup).mergeSort
    (fun a b => decide (a ≤ b))
  keys.map (fun k =>
    let grp := matched.filter (fun e => dayKey e.date == k)
    ⟨k, (grp.map (·.amount)).sum, grp.length⟩)

/-! ## Savings goals (`savings.service.ts` and the savings goal model) -/

/-- An embedded contribution of a savings goal. -/
structure Contribution where
  amount : ℚ
  date : DateTime
  note : Option String
deriving DecidableEq, Repr

/-- A `SavingsGoal` document: the fields the service logic reads or
writes (presentation fields — description, icon, color, priority,
target date — are omitted; no claim depends on them). -/
structure Goal where
  id : ℕ
  userId : ℕ
  title : String
  targetAmount : ℚ
  currentAmount : ℚ
  contributions : List Contribution
  isCompleted : Bool
  completedAt : Option DateTime
deriving DecidableEq, Repr

/-- First conditional of the pre-save hook of the savings goal model:
`if (currentAmount >= targetAmount && !isCompleted)` complete the goal
and stamp `completedAt`. -/
def completeIfReached (g : Goal) (now : DateTime) : Goal :=
  if g.targetAmount ≤ g.currentAmount && !g.isCompleted then
    { g with isCompleted := true, completedAt := some now }
  else g

/-- Second conditional of the pre-save hook:
`if (currentAmount < targetAmount && isCompleted)` un-complete the goal
and clear `completedAt`. -/
def uncompleteIfBelow (g : Goal) : Goal :=
  if g.currentAmount < g.targetAmount && g.isCompleted then
    { g with isCompleted := false, completedAt := none }
  else g

/-- Pre-save hook of the savings goal model, run on every save: the two
conditionals in sequence (the second reads the state the first wrote). -/
def preSave (g : Goal) (now : DateTime) : Goal :=
  uncompleteIfBelow (completeIfReached g now)

/-- Creation payload of `createSavingsGoal` (fields the model keeps). -/
structure CreateGoalDTO where
  title : String
  targetAmount : ℚ
deriving DecidableEq, Repr

/-- Partial update payload of `updateSavingsGoal`
(`Partial<CreateSavingsGoalDTO>`; `currentAmount` is not updatable). -/
structure UpdateGoalDTO where
  title : Option String
  targetAmount : Option ℚ
deriving DecidableEq, Repr

/-- Operation `createSavingsGoal(userId, data)`: a fresh document with
`currentAmount: 0` and schema defaults, saved (so the pre-save hook
runs). `gid` is the id the store assigns. -/
def createSavingsGoal (uid : ℕ) (data : CreateGoalDTO) (gid : ℕ)
    (now : DateTime) : Goal :=
  preSave ⟨gid, uid, data.title, data.targetAmount, 0, [], false, none⟩ now

/-- The `findOne({_id, userId})` goal lookup: `none` when the goal is
missing or owned by another user. -/
def findGoal (goals : List Goal) (uid gid : ℕ) : Option Goal :=
  goals.find? (fun g => g.id == gid && g.userId == uid)

/-- Operation `updateSavingsGoal(userId, goalId, data)`: NotFound when the lookup
misses, BadRequest on a completed goal, otherwise `Object.assign` of the
provided fields followed by a save (pre-save hook). -/
def updateSavingsGoal (goals : List Goal) (uid gid : ℕ)
    (data : UpdateGoalDTO) (now : DateTime) : Except Err Goal :=
  match findGoal goals uid gid with
  | none => .error (.notFound "Savings goal not found")
  | some g =>
    if g.isCompleted then .error (.badRequest "Cannot modify completed goal")
    else .ok (preSave { g with
      title := data.title.getD g.title,
      targetAmount := data.targetAmount.getD g.targetAmount } now)

/-- The milestone sequence of `addContribution`, in ascending order. -/
def milestones : List ℚ :=
  [25, 50, 75, 100]

/-- Full outcome of `addContribution`: the goal returned to the caller,
the milestone values for which `sendSavingsMilestone` was dispatched
(the loop breaks after the first, so at most one), and the
`console.error` log entries from a rejected dispatch promise. -/
structure ContributionOutcome where
  result : Except Err Goal
  fired : List ℚ
  logged : List String
deriving DecidableEq, Repr

/-- Operation `addContribution(userId, goalId, data)` of `savings.service.ts`:
look the goal up (NotFound when missing/unowned — no completed-goal
check), push the contribution, add the amount to `currentAmount`, save
(pre-save hook), then walk the ascending milestones and dispatch one
notification for the first milestone `m` with
`oldProgress < m && newProgress >= m`, breaking after it. -/
def addContribution (goals : List Goal) (uid gid : ℕ) (amount : ℚ)
    (note : Option String) (now : DateTime)
    (dispatchFails : Bool) : ContributionOutcome :=
  match findGoal goals uid gid with
  | none => ⟨.error (.notFound "Savings goal not found"), [], []⟩
  | some goal =>
    let oldAmount := goal.currentAmount
    let g2 := preSave { goal with
      contributions := goal.contributions ++ [⟨amount, now, note⟩],
      currentAmount := goal.currentAmount + amount } now
    let progress := g2.currentAmount / g2.targetAmount * 100
    let oldProgress := oldAmount / goal.targetAmount * 100
    let hit := milestones.find? (fun m =>
      decide (oldProgress < m) && decide (m ≤ progress))
    ⟨.ok g2, hit.toList,
      if hit.isSome ∧ dispatchFails then
        ["Failed to send savings milestone"] else []⟩

/-! ## Helper lemmas -/

lemma round2_zero : round2 0 = 0 := by
  unfold round2
  norm_num

lemma statusOf_exceeded_iff {p : ℚ} :
    statusOf p = BStatus.exceeded ↔ 100 ≤ p := by
  unfold statusOf
  split_ifs with h1 h2 <;> simp_all <;> intros <;> linarith

lemma statusOf_warning_iff {p : ℚ} :
    statusOf p = BStatus.warning ↔ 80 ≤ p ∧ p < 100 := by
  unfold statusOf
  split_ifs with h1 h2 <;> simp_all <;> intros <;> linarith

lemma statusOf_safe_iff {p : ℚ} :
    statusOf p = BStatus.safe ↔ p < 80 := by
  unfold statusOf
  split_ifs with h1 h2 <;> simp_all <;> intros <;> linarith

lemma preSave_currentAmount (g : Goal) (now : DateTime) :
    (preSave g now).currentAmount = g.currentAmount := by
  unfold preSave uncompleteIfBelow completeIfReached
  split_ifs <;> rfl

lemma preSave_targetAmount (g : Goal) (now : DateTime) :
    (preSave g now).targetAmount = g.targetAmount := by
  unfold preSave uncompleteIfBelow completeIfReached
  split_ifs <;> rfl

lemma preSave_contributions (g : Goal) (now : DateTime) :
    (preSave g now).contributions = g.contributions := by
  unfold preSave uncompleteIfBelow completeIfReached
  split_ifs <;> rfl

lemma preSave_isCompleted (g : Goal) (now : DateTime) :
    (preSave g now).isCompleted = decide (g.targetAmount ≤ g.currentAmount) := by
  unfold preSave uncompleteIfBelow completeIfReached
  by_cases hle : g.targetAmount ≤ g.currentAmount
  · cases hc : g.isCompleted <;> simp [hle, hc, not_lt.mpr hle]
  · cases hc : g.isCompleted <;> simp [hle, hc, lt_of_not_le hle]

lemma preSave_reset (g : Goal) (now : DateTime)
    (hc : g.isCompleted = true) (hlt : g.currentAmount < g.targetAmount) :
    (preSave g now).isCompleted = false ∧ (preSave g now).completedAt = none := by
  unfold preSave uncompleteIfBelow completeIfReached
  simp [hc, not_le.mpr hlt, hlt]

lemma find?_min_of_pairwise {l : List ℚ} {p : ℚ → Bool} {a : ℚ}
    (hsort : l.Pairwise (· ≤ ·)) (hfind : l.find? p = some a) :
    ∀ b ∈ l, p b = true → a ≤ b := by
  induction l with
  | nil => simp at hfind
  | cons x xs ih =>
    rw [List.pairwise_cons] at hsort
    cases hpx : p x with
    | true =>
      rw [List.find?_cons_of_pos _ hpx] at hfind
      obtain rfl : x = a := by simpa using hfind
      intro b hb _
      rcases List.mem_cons.mp hb with rfl | hb
      · exact le_refl b
      · exact hsort.1 b hb
    | false =>
      rw [List.find?_cons_of_neg _ (by simp [hpx])] at hfind
      intro b hb hpb
      rcases List.mem_cons.mp hb with rfl | hb
      · rw [hpx] at hpb; exact absurd hpb (by simp)
      · exact ih hsort.2 hfind b hb hpb

/-! ## C1: percentage rounding and status thresholds of
`getCategoryBudgetStatus` -/

/-- C1, amended claim: for a call on an existing owned category with
`monthlyBudget = B > 0` and current-month spend `S`, the operation
succeeds, the returned percentage is `S / B * 100` rounded half-up at
the 2nd decimal, and the status is classified from the UNROUNDED
percentage: exceeded iff `S / B * 100 >= 100`, warning iff
`80 <= S / B * 100 < 100`, safe otherwise.  (The original claim, which
classifies by the returned rounded percentage, is refuted by
`getCategoryBudgetStatus_status_mismatch_cex`.) -/
theorem getCategoryBudgetStatus_percentage_and_status (df : Bool)
    (cats : List Category) (expenses : List Expense) (uid cid : ℕ)
    (now : DateTime) (cat : Category) (B : ℚ)
    (hfind : cats.find? (fun c => c.id == cid && c.userId == uid) = some cat)
    (hb : cat.monthlyBudget = some B) (hpos : 0 < B) :
    (getCategoryBudgetStatusFull df cats expenses uid cid now).result =
      .ok (mkBudgetStatus cat (monthSpent expenses uid cid now)) ∧
    (mkBudgetStatus cat (monthSpent expenses uid cid now)).percentage =
      round2 (monthSpent expenses uid cid now / B * 100) ∧
    ((mkBudgetStatus cat (monthSpent expenses uid cid now)).status =
        BStatus.exceeded ↔
      100 ≤ monthSpent expenses uid cid now / B * 100) ∧
    ((mkBudgetStatus cat (monthSpent expenses uid cid now)).status =
        BStatus.warning ↔
      80 ≤ monthSpent expenses uid cid now / B * 100 ∧
        monthSpent expenses uid cid now / B * 100 < 100) ∧
    ((mkBudgetStatus cat (monthSpent expenses uid cid now)).status =
        BStatus.safe ↔
      monthSpent expenses uid cid now / B * 100 < 80) := by
  have hfalsy : jsFalsy cat.monthlyBudget = false := by
    rw [hb]
    simp only [jsFalsy, beq_eq_false_iff_ne, ne_eq]
    exact hpos.ne'
  refine ⟨?_, ?_, ?_, ?_, ?_⟩
  · simp only [getCategoryBudgetStatusFull, hfind, hfalsy]
    simp
  all_goals simp only [mkBudgetStatus, hb, Option.getD_some, if_pos hpos]
  · exact statusOf_exceeded_iff
  · exact statusOf_warning_iff
  · exact statusOf_safe_iff

/-- C1, counterexample to the claim as stated: with budget 100000 and a
single current-month expense of 99999 the raw percentage is 99.999; the
returned percentage (2 decimals, half-up) rounds to 100 while the
status — classified from the raw value before rounding — is warning,
so the claimed biconditional (status exceeded iff returned
percentage >= 100) is false. -/
theorem getCategoryBudgetStatus_status_mismatch_cex :
    (getCategoryBudgetStatusFull false
        [⟨10, 1, "Food", "food", "#112233", some 100000⟩]
        [⟨1, 10, 99999, ⟨2026, 9, 5, 12, 0, 0, 0⟩⟩] 1 10
        ⟨2026, 9, 12, 10, 0, 0, 0⟩).result =
      .ok ⟨10, "Food", "#112233", "food", 100000, 99999, 1, 100,
        BStatus.warning, "#F39C12"⟩ := by
  norm_num [getCategoryBudgetStatusFull, mkBudgetStatus, monthSpent,
    inCurrentMonthWindow, startOfMonth, endOfMonth, DateTime.key, daysInMonth,
    isLeapYear, jsFalsy, statusOf, colorOf, round2, List.find?]

/-- C1 witness: the amended theorem applied to a concrete input
(budget 1000, one current-month expense of 850). -/
theorem getCategoryBudgetStatus_percentage_and_status_witness :
    ([⟨10, 1, "Food", "food", "#112233", some 1000⟩] : List Category).find?
        (fun c => c.id == 10 && c.userId == 1) =
      some ⟨10, 1, "Food", "food", "#112233", some 1000⟩ ∧
    (⟨10, 1, "Food", "food", "#112233", some 1000⟩ : Category).monthlyBudget =
      some 1000 ∧
    (0 : ℚ) < 1000 ∧
    (getCategoryBudgetStatusFull false
        [⟨10, 1, "Food", "food", "#112233", some 1000⟩]
        [⟨1, 10, 850, ⟨2026, 9, 5, 12, 0, 0, 0⟩⟩] 1 10
        ⟨2026, 9, 12, 10, 0, 0, 0⟩).result =
      .ok (mkBudgetStatus ⟨10, 1, "Food", "food", "#112233", some 1000⟩
        (monthSpent [⟨1, 10, 850, ⟨2026, 9, 5, 12, 0, 0, 0⟩⟩] 1 10
          ⟨2026, 9, 12, 10, 0, 0, 0⟩)) :=
  ⟨by norm_num [List.find?], rfl, by norm_num,
    (getCategoryBudgetStatus_percentage_and_status false _ _ 1 10 _ _ 1000
      (by norm_num [List.find?]) rfl (by norm_num)).1⟩

/-! ## C5: zero monthly budget -/

/-- C5, amended claim: a call to `getCategoryBudgetStatus` on an existing
owned category whose `monthlyBudget` is 0 does NOT return a
zero-percentage status — the falsy check `if (!category.monthlyBudget)`
treats a 0 budget like an unset one, so the operation fails with
NotFound ("Category has no budget set"); the zero-guard in the
percentage formula is unreachable in this operation. -/
theorem getCategoryBudgetStatus_zero_budget (df : Bool)
    (cats : List Category) (expenses : List Expense) (uid cid : ℕ)
    (now : DateTime) (cat : Category)
    (hfind : cats.find? (fun c => c.id == cid && c.userId == uid) = some cat)
    (hb : cat.monthlyBudget = some 0) :
    (getCategoryBudgetStatusFull df cats expenses uid cid now).result =
      .error (.notFound "Category has no budget set") := by
  have hfalsy : jsFalsy cat.monthlyBudget = true := by
    rw [hb]
    simp [jsFalsy]
  simp only [getCategoryBudgetStatusFull, hfind, hfalsy]
  simp

/-- C5, counterexample to the claim as stated: on a concrete owned
category with `monthlyBudget = 0` the operation returns a NotFound
error, not a budget status with percentage 0. -/
theorem getCategoryBudgetStatus_zero_budget_cex :
    (getCategoryBudgetStatusFull false
        [⟨7, 1, "Zero", "zero", "#000000", some 0⟩] [] 1 7
        ⟨2026, 9, 12, 10, 0, 0, 0⟩).result =
      .error (.notFound "Category has no budget set") ∧
    ∀ bs : BudgetStatus,
      (getCategoryBudgetStatusFull false
          [⟨7, 1, "Zero", "zero", "#000000", some 0⟩] [] 1 7
          ⟨2026, 9, 12, 10, 0, 0, 0⟩).result ≠ .ok bs := by
  constructor
  · norm_num [getCategoryBudgetStatusFull, jsFalsy, List.find?]
  · intro bs
    simp [getCategoryBudgetStatusFull, jsFalsy, List.find?]

/-- C5 witness: the amended theorem applied to the concrete zero-budget
category. -/
theorem getCategoryBudgetStatus_zero_budget_witness :
    ([⟨7, 1, "Zero", "zero", "#000000", some 0⟩] : List Category).find?
        (fun c => c.id == 7 && c.userId == 1) =
      some ⟨7, 1, "Zero", "zero", "#000000", some 0⟩ ∧
    (getCategoryBudgetStatusFull true
        [⟨7, 1, "Zero", "zero", "#000000", some 0⟩] [] 1 7
        ⟨2026, 9, 12, 10, 0, 0, 0⟩).result =
      .error (.notFound "Category has no budget set") :=
  ⟨by norm_num [List.find?],
    getCategoryBudgetStatus_zero_budget true _ [] 1 7 _
      ⟨7, 1, "Zero", "zero", "#000000", some 0⟩
      (by norm_num [List.find?]) rfl⟩

/-! ## C6: the current-month window boundaries -/

lemma daysInMonth_bounds (y m : ℕ) :
    1 ≤ daysInMonth y m ∧ daysInMonth y m ≤ 31 := by
  unfold daysInMonth
  split_ifs <;> omega

/-- C6, amended claim: the current-month window is inclusive of both of
its boundary instants, but those boundaries are the first day at
00:00:00.000 and the last day at 23:59:59.000 — NOT 23:59:59.999
(`new Date(y, m + 1, 0, 23, 59, 59)` leaves milliseconds at 0).  A valid
instant of the current calendar month is inside the window iff it is not
in the final 999 milliseconds of the last day, so an expense dated in
that final stretch is excluded from the spent total (refuting the
original claim, see `monthWindow_final_ms_cex`). -/
theorem monthWindow_covers (now d : DateTime) (hv : validDT d = true)
    (hy : d.year = now.year) (hm : d.month = now.month) :
    inCurrentMonthWindow now d = true ↔
      ¬(d.day = daysInMonth now.year now.month ∧ d.hour = 23 ∧
        d.minute = 59 ∧ d.second = 59 ∧ 0 < d.ms) := by
  have hb := daysInMonth_bounds now.year now.month
  unfold validDT at hv
  rw [hy, hm] at hv
  simp only [Bool.and_eq_true, decide_eq_true_eq] at hv
  unfold inCurrentMonthWindow startOfMonth endOfMonth DateTime.key
  simp only [Bool.and_eq_true, decide_eq_true_eq]
  rw [hy, hm]
  omega

/-- C6, counterexample to the claim as stated: 2026-10-31 23:59:59.999
is a valid instant of the last day of October 2026, yet it is outside
the window computed for an October 2026 evaluation instant, and an
expense dated there contributes 0 to the month spend. -/
theorem monthWindow_final_ms_cex :
    validDT ⟨2026, 9, 31, 23, 59, 59, 999⟩ = true ∧
    inCurrentMonthWindow ⟨2026, 9, 12, 10, 0, 0, 0⟩
      ⟨2026, 9, 31, 23, 59, 59, 999⟩ = false ∧
    monthSpent [⟨1, 10, 5, ⟨2026, 9, 31, 23, 59, 59, 999⟩⟩] 1 10
      ⟨2026, 9, 12, 10, 0, 0, 0⟩ = 0 := by
  refine ⟨by decide, by decide, ?_⟩
  norm_num [monthSpent, inCurrentMonthWindow, startOfMonth, endOfMonth,
    DateTime.key, daysInMonth, isLeapYear]

/-- C6 witness: the amended theorem applied to the last day of October
2026 at 23:59:59.000, which IS inside the window. -/
theorem monthWindow_covers_witness :
    validDT ⟨2026, 9, 31, 23, 59, 59, 0⟩ = true ∧
    (⟨2026, 9, 31, 23, 59, 59, 0⟩ : DateTime).year =
      (⟨2026, 9, 12, 10, 0, 0, 0⟩ : DateTime).year ∧
    (⟨2026, 9, 31, 23, 59, 59, 0⟩ : DateTime).month =
      (⟨2026, 9, 12, 10, 0, 0, 0⟩ : DateTime).month ∧
    (inCurrentMonthWindow ⟨2026, 9, 12, 10, 0, 0, 0⟩
        ⟨2026, 9, 31, 23, 59, 59, 0⟩ = true ↔
      ¬((⟨2026, 9, 31, 23, 59, 59, 0⟩ : DateTime).day =
          daysInMonth (⟨2026, 9, 12, 10, 0, 0, 0⟩ : DateTime).year
            (⟨2026, 9, 12, 10, 0, 0, 0⟩ : DateTime).month ∧
        (⟨2026, 9, 31, 23, 59, 59, 0⟩ : DateTime).hour = 23 ∧
        (⟨2026, 9, 31, 23, 59, 59, 0⟩ : DateTime).minute = 59 ∧
        (⟨2026, 9, 31, 23, 59, 59, 0⟩ : DateTime).second = 59 ∧
        0 < (⟨2026, 9, 31, 23, 59, 59, 0⟩ : DateTime).ms)) :=
  ⟨by decide, rfl, rfl,
    monthWindow_covers ⟨2026, 9, 12, 10, 0, 0, 0⟩ ⟨2026, 9, 31, 23, 59, 59, 0⟩
      (by decide) rfl rfl⟩

/-! ## C2: the budget summary -/

lemma round2_ite (c : Prop) [Decidable c] (x : ℚ) :
    round2 (if c then x else 0) = if c then round2 x else 0 := by
  split_ifs
  · rfl
  · exact round2_zero

lemma pairwise_percentage_mergeSort (l : List BudgetStatus) :
    (l.mergeSort (fun a b => decide (b.percentage ≤ a.percentage))).Pairwise
      (fun a b => b.percentage ≤ a.percentage) := by
  have h : (l.mergeSort
        (fun a b => decide (b.percentage ≤ a.percentage))).Pairwise
      (fun a b => decide (b.percentage ≤ a.percentage) = true) :=
    List.sorted_mergeSort
      (fun a b c hab hbc => by
        simp only [decide_eq_true_eq] at *
        exact le_trans hbc hab)
      (fun a b => by
        simp only [Bool.or_eq_true, decide_eq_true_eq]
        exact le_total b.percentage a.percentage)
      l
  exact h.imp (fun hab => by simpa using hab)

/-- C2: for every user, `getBudgetSummary` returns its categories sorted
by percentage in descending order; `overallPercentage` equals
`round2(totalSpent / totalBudget * 100)` when `totalBudget > 0` and `0`
otherwise; and when the user has no category with a positive budget it
returns the all-zero summary with an empty categories list.  The model
function is total (`BudgetSummary`-valued, not `Except`): the operation
never errors. -/
theorem getBudgetSummary_spec (cats : List Category)
    (expenses : List Expense) (uid : ℕ) (now : DateTime) :
    (getBudgetSummary cats expenses uid now).categories.Pairwise
      (fun a b => b.percentage ≤ a.percentage) ∧
    (getBudgetSummary cats expenses uid now).overallPercentage =
      (if 0 < (getBudgetSummary cats expenses uid now).totalBudget then
        round2 ((getBudgetSummary cats expenses uid now).totalSpent /
          (getBudgetSummary cats expenses uid now).totalBudget * 100)
      else 0) ∧
    ((cats.filter (hasPositiveBudget uid)).isEmpty = true →
      getBudgetSummary cats expenses uid now = emptySummary) := by
  by_cases hemp : (cats.filter (hasPositiveBudget uid)).isEmpty = true
  · refine ⟨?_, ?_, fun _ => ?_⟩ <;>
      simp [getBudgetSummary, hemp, emptySummary]
  · have hemp' : (cats.filter (hasPositiveBudget uid)).isEmpty = false :=
      Bool.not_eq_true _ ▸ eq_false_of_ne_true hemp
    refine ⟨?_, ?_, fun h => absurd h hemp⟩
    · simp only [getBudgetSummary, hemp', Bool.false_eq_true, if_false]
      exact pairwise_percentage_mergeSort _
    · simp only [getBudgetSummary, hemp', Bool.false_eq_true, if_false]
      exact round2_ite _ _

/-- C2 witness: the summary for a user with no budgeted categories is
the all-zero summary, via the theorem applied at the empty store. -/
theorem getBudgetSummary_spec_witness :
    (([] : List Category).filter (hasPositiveBudget 1)).isEmpty = true ∧
    getBudgetSummary [] [] 1 ⟨2026, 9, 12, 10, 0, 0, 0⟩ = emptySummary :=
  ⟨rfl, (getBudgetSummary_spec [] [] 1 ⟨2026, 9, 12, 10, 0, 0, 0⟩).2.2 rfl⟩

/-! ## C4: the completion invariant of savings goals -/

lemma preSave_invariant (g : Goal) (now : DateTime) :
    ((preSave g now).isCompleted = true ↔
      (preSave g now).targetAmount ≤ (preSave g now).currentAmount) := by
  rw [preSave_isCompleted, preSave_targetAmount, preSave_currentAmount]
  simp

/-- C4: after each of the three mutations that save the goal document
(`createSavingsGoal`, `updateSavingsGoal`, `addContribution`), the saved
goal satisfies `isCompleted = true` iff
`currentAmount >= targetAmount`; and a save on a previously completed
goal whose `currentAmount` is below `targetAmount` resets `isCompleted`
to false and `completedAt` to null. -/
theorem savings_isCompleted_invariant :
    (∀ (uid : ℕ) (data : CreateGoalDTO) (gid : ℕ) (now : DateTime),
      ((createSavingsGoal uid data gid now).isCompleted = true ↔
        (createSavingsGoal uid data gid now).targetAmount ≤
          (createSavingsGoal uid data gid now).currentAmount)) ∧
    (∀ (goals : List Goal) (uid gid : ℕ) (data : UpdateGoalDTO)
        (now : DateTime) (g' : Goal),
      updateSavingsGoal goals uid gid data now = .ok g' →
      (g'.isCompleted = true ↔ g'.targetAmount ≤ g'.currentAmount)) ∧
    (∀ (goals : List Goal) (uid gid : ℕ) (amount : ℚ)
        (note : Option String) (now : DateTime) (df : Bool) (g' : Goal),
      (addContribution goals uid gid amount note now df).result = .ok g' →
      (g'.isCompleted = true ↔ g'.targetAmount ≤ g'.currentAmount)) ∧
    (∀ (g : Goal) (now : DateTime), g.isCompleted = true →
      g.currentAmount < g.targetAmount →
      (preSave g now).isCompleted = false ∧
        (preSave g now).completedAt = none) := by
  refine ⟨?_, ?_, ?_, ?_⟩
  · intro uid data gid now
    exact preSave_invariant _ _
  · intro goals uid gid data now g' h
    unfold updateSavingsGoal at h
    cases hf : findGoal goals uid gid with
    | none => rw [hf] at h; cases h
    | some g =>
      rw [hf] at h
      by_cases hc : g.isCompleted = true
      · simp [hc] at h
      · simp only [Bool.not_eq_true] at hc
        simp only [hc, Bool.false_eq_true, if_false, Except.ok.injEq] at h
        rw [← h]
        exact preSave_invariant _ _
  · intro goals uid gid amount note now df g' h
    unfold addContribution at h
    cases hf : findGoal goals uid gid with
    | none => rw [hf] at h; cases h
    | some g =>
      rw [hf] at h
      simp only [Except.ok.injEq] at h
      rw [← h]
      exact preSave_invariant _ _
  · intro g now hc hlt
    exact preSave_reset g now hc hlt

/-- C4 witness: a completed goal whose amount (40) is below its target
(100) is un-completed by the pre-save hook, with `completedAt`
cleared. -/
theorem savings_isCompleted_invariant_witness :
    (⟨6, 1, "Done", 100, 40, [], true, some ⟨2026, 8, 1, 0, 0, 0, 0⟩⟩ :
      Goal).isCompleted = true ∧
    (⟨6, 1, "Done", 100, 40, [], true, some ⟨2026, 8, 1, 0, 0, 0, 0⟩⟩ :
      Goal).currentAmount <
      (⟨6, 1, "Done", 100, 40, [], true, some ⟨2026, 8, 1, 0, 0, 0, 0⟩⟩ :
        Goal).targetAmount ∧
    ((preSave ⟨6, 1, "Done", 100, 40, [], true, some ⟨2026, 8, 1, 0, 0, 0, 0⟩⟩
        ⟨2026, 9, 12, 10, 0, 0, 0⟩).isCompleted = false ∧
      (preSave ⟨6, 1, "Done", 100, 40, [], true, some ⟨2026, 8, 1, 0, 0, 0, 0⟩⟩
        ⟨2026, 9, 12, 10, 0, 0, 0⟩).completedAt = none) :=
  ⟨rfl, by norm_num,
    savings_isCompleted_invariant.2.2.2 _ _ rfl (by norm_num)⟩

/-! ## C3: savings milestone crossing -/

lemma milestones_sorted : milestones.Pairwise (· ≤ ·) := by
  simp [milestones, List.pairwise_cons]
  norm_num

lemma addContribution_fired_eq (goals : List Goal) (uid gid : ℕ)
    (amount : ℚ) (note : Option String) (now : DateTime) (df : Bool)
    (goal : Goal) (hfind : findGoal goals uid gid = some goal) :
    (addContribution goals uid gid amount note now df).fired =
      (milestones.find? (fun m =>
        decide (goal.currentAmount / goal.targetAmount * 100 < m) &&
        decide (m ≤ (goal.currentAmount + amount) /
          goal.targetAmount * 100))).toList := by
  unfold addContribution
  rw [hfind]
  simp [preSave_currentAmount, preSave_targetAmount]

/-- C3: for every `addContribution` call on an existing owned goal, with
`oldProgress` the progress percentage before and `newProgress` after
adding the amount, a milestone notification is dispatched iff some
milestone `m` in [25, 50, 75, 100] satisfies
`oldProgress < m <= newProgress`; at most one notification fires, and
the one that fires is the lowest such `m`. -/
theorem addContribution_milestones (goals : List Goal) (uid gid : ℕ)
    (amount : ℚ) (note : Option String) (now : DateTime) (df : Bool)
    (goal : Goal) (hfind : findGoal goals uid gid = some goal) :
    ((addContribution goals uid gid amount note now df).fired ≠ [] ↔
      ∃ m ∈ milestones,
        goal.currentAmount / goal.targetAmount * 100 < m ∧
        m ≤ (goal.currentAmount + amount) / goal.targetAmount * 100) ∧
    (addContribution goals uid gid amount note now df).fired.length ≤ 1 ∧
    (∀ m ∈ (addContribution goals uid gid amount note now df).fired,
      m ∈ milestones ∧
      goal.currentAmount / goal.targetAmount * 100 < m ∧
      m ≤ (goal.currentAmount + amount) / goal.targetAmount * 100 ∧
      ∀ m' ∈ milestones,
        goal.currentAmount / goal.targetAmount * 100 < m' →
        m' ≤ (goal.currentAmount + amount) / goal.targetAmount * 100 →
        m ≤ m') := by
  rw [addContribution_fired_eq goals uid gid amount note now df goal hfind]
  cases hf : milestones.find? (fun m =>
      decide (goal.currentAmount / goal.targetAmount * 100 < m) &&
      decide (m ≤ (goal.currentAmount + amount) /
        goal.targetAmount * 100)) with
  | none =>
    have hnone := List.find?_eq_none.mp hf
    refine ⟨?_, by simp, by simp⟩
    simp only [Option.toList_none, ne_eq, not_true_eq_false, false_iff]
    rintro ⟨m, hm, hlt, hle⟩
    exact hnone m hm (by simp [hlt, hle])
  | some m0 =>
    have hp := List.find?_some hf
    simp only [Bool.and_eq_true, decide_eq_true_eq] at hp
    have hmem := List.mem_of_find?_eq_some hf
    refine ⟨?_, by simp, ?_⟩
    · constructor
      · intro _
        exact ⟨m0, hmem, hp.1, hp.2⟩
      · intro _
        simp
    · intro m hm
      simp only [Option.toList_some, List.mem_singleton] at hm
      subst hm
      exact ⟨hmem, hp.1, hp.2, fun m' hm' hlt' hle' =>
        find?_min_of_pairwise milestones_sorted hf m' hm' (by simp [hlt', hle'])⟩

/-- C3 witness: a contribution moving a goal from 40 to 60 out of a
100 target fires exactly one notification, for milestone 50. -/
theorem addContribution_milestones_witness :
    findGoal [⟨5, 1, "Trip", 100, 40, [], false, none⟩] 1 5 =
      some ⟨5, 1, "Trip", 100, 40, [], false, none⟩ ∧
    (addContribution [⟨5, 1, "Trip", 100, 40, [], false, none⟩] 1 5 20 none
      ⟨2026, 9, 12, 10, 0, 0, 0⟩ false).fired = [50] ∧
    ((addContribution [⟨5, 1, "Trip", 100, 40, [], false, none⟩] 1 5 20 none
        ⟨2026, 9, 12, 10, 0, 0, 0⟩ false).fired ≠ [] ↔
      ∃ m ∈ milestones, (40 : ℚ) / 100 * 100 < m ∧
        m ≤ ((40 : ℚ) + 20) / 100 * 100) := by
  have hfind : findGoal [⟨5, 1, "Trip", 100, 40, [], false, none⟩] 1 5 =
      some ⟨5, 1, "Trip", 100, 40, [], false, none⟩ := by
    norm_num [findGoal, List.find?]
  refine ⟨hfind, ?_, (addContribution_milestones _ 1 5 20 none _ false _ hfind).1⟩
  rw [addContribution_fired_eq _ 1 5 20 none _ false _ hfind]
  norm_num [milestones, List.find?]

/-! ## C10: `addContribution` has no completed-goal lock -/

/-- C10: `addContribution`, unlike `updateSavingsGoal`, never checks
`isCompleted`: every error it can return is the NotFound of a missing
or unowned goal (never BadRequest), and on an existing owned goal —
completed or not — a positive contribution succeeds, appends the
contribution, and strictly increases `currentAmount` (which may then
exceed `targetAmount`, as the witness shows concretely). -/
theorem addContribution_no_completed_lock (goals : List Goal)
    (uid gid : ℕ) (amount : ℚ) (note : Option String) (now : DateTime)
    (df : Bool) :
    (∀ e, (addContribution goals uid gid amount note now df).result =
        .error e →
      findGoal goals uid gid = none ∧
        e = .notFound "Savings goal not found") ∧
    (∀ goal, findGoal goals uid gid = some goal →
      goal.isCompleted = true → 0 < amount →
      ∃ g', (addContribution goals uid gid amount note now df).result =
          .ok g' ∧
        g'.contributions = goal.contributions ++ [⟨amount, now, note⟩] ∧
        g'.currentAmount = goal.currentAmount + amount ∧
        goal.currentAmount < g'.currentAmount) := by
  cases hf : findGoal goals uid gid with
  | none =>
    refine ⟨?_, ?_⟩
    · intro e h
      unfold addContribution at h
      rw [hf] at h
      simp only [Except.error.injEq] at h
      exact ⟨rfl, h.symm⟩
    · intro goal hg
      cases hg
  | some g =>
    refine ⟨?_, ?_⟩
    · intro e h
      unfold addContribution at h
      rw [hf] at h
      cases h
    · intro goal hg _ hamt
      injection hg with hg
      subst hg
      refine ⟨preSave { g with
          contributions := g.contributions ++ [⟨amount, now, note⟩],
          currentAmount := g.currentAmount + amount } now, ?_, ?_, ?_, ?_⟩
      · unfold addContribution
        rw [hf]
      · rw [preSave_contributions]
      · rw [preSave_currentAmount]
      · rw [preSave_currentAmount]
        exact lt_add_of_pos_right _ hamt

/-- C10 witness: on a completed goal (100 of 100), a contribution of 50
succeeds and leaves `currentAmount` at 150, exceeding the target. -/
theorem addContribution_no_completed_lock_witness :
    findGoal [⟨6, 1, "Done", 100, 100, [], true, some ⟨2026, 8, 1, 0, 0, 0, 0⟩⟩]
        1 6 =
      some ⟨6, 1, "Done", 100, 100, [], true, some ⟨2026, 8, 1, 0, 0, 0, 0⟩⟩ ∧
    (⟨6, 1, "Done", 100, 100, [], true, some ⟨2026, 8, 1, 0, 0, 0, 0⟩⟩ :
      Goal).isCompleted = true ∧
    (0 : ℚ) < 50 ∧
    (∃ g', (addContribution
          [⟨6, 1, "Done", 100, 100, [], true, some ⟨2026, 8, 1, 0, 0, 0, 0⟩⟩]
          1 6 50 none ⟨2026, 9, 12, 10, 0, 0, 0⟩ false).result = .ok g' ∧
      g'.contributions = ([] : List Contribution) ++
        [⟨50, ⟨2026, 9, 12, 10, 0, 0, 0⟩, none⟩] ∧
      g'.currentAmount = (100 : ℚ) + 50 ∧
      (100 : ℚ) < g'.currentAmount) ∧
    (addContribution
        [⟨6, 1, "Done", 100, 100, [], true, some ⟨2026, 8, 1, 0, 0, 0, 0⟩⟩]
        1 6 50 none ⟨2026, 9, 12, 10, 0, 0, 0⟩ false).result =
      .ok ⟨6, 1, "Done", 100, 150, [⟨50, ⟨2026, 9, 12, 10, 0, 0, 0⟩, none⟩],
        true, some ⟨2026, 8, 1, 0, 0, 0, 0⟩⟩ := by
  have hfind : findGoal
      [⟨6, 1, "Done", 100, 100, [], true, some ⟨2026, 8, 1, 0, 0, 0, 0⟩⟩] 1 6 =
      some ⟨6, 1, "Done", 100, 100, [], true, some ⟨2026, 8, 1, 0, 0, 0, 0⟩⟩ := by
    norm_num [findGoal, List.find?]
  refine ⟨hfind, rfl, by norm_num,
    (addContribution_no_completed_lock _ 1 6 50 none _ false).2 _ hfind rfl
      (by norm_num), ?_⟩
  norm_num [addContribution, hfind, preSave, completeIfReached,
    uncompleteIfBelow]

/-! ## C9: notification dispatch failures never reach the caller -/

/-- C9: both dispatch sites (`sendBudgetAlert` inside
`getCategoryBudgetStatus` when the raw percentage is at least 80, and
`sendSavingsMilestone` inside `addContribution` on a milestone
crossing) swallow a failed dispatch with a logging catch handler: the
caller-visible result is identical whether the dispatch succeeds or
fails, and a failure is logged exactly when a dispatch was attempted. -/
theorem notification_dispatch_isolated :
    (∀ (cats : List Category) (expenses : List Expense) (uid cid : ℕ)
        (now : DateTime),
      (getCategoryBudgetStatusFull true cats expenses uid cid now).result =
        (getCategoryBudgetStatusFull false cats expenses uid cid now).result) ∧
    (∀ (goals : List Goal) (uid gid : ℕ) (amount : ℚ)
        (note : Option String) (now : DateTime),
      (addContribution goals uid gid amount note now true).result =
        (addContribution goals uid gid amount note now false).result) ∧
    (∀ (cats : List Category) (expenses : List Expense) (uid cid : ℕ)
        (now : DateTime),
      ((getCategoryBudgetStatusFull true cats expenses uid cid now).logged ≠ [] ↔
        (getCategoryBudgetStatusFull true cats expenses uid cid now).alerts ≠ [])) ∧
    (∀ (goals : List Goal) (uid gid : ℕ) (amount : ℚ)
        (note : Option String) (now : DateTime),
      ((addContribution goals uid gid amount note now true).logged ≠ [] ↔
        (addContribution goals uid gid amount note now true).fired ≠ [])) := by
  refine ⟨?_, ?_, ?_, ?_⟩
  · intro cats expenses uid cid now
    unfold getCategoryBudgetStatusFull
    cases hf : cats.find? (fun c => c.id == cid && c.userId == uid) with
    | none => rfl
    | some c => cases hj : jsFalsy c.monthlyBudget <;> simp [hj]
  · intro goals uid gid amount note now
    unfold addContribution
    cases hf : findGoal goals uid gid <;> rfl
  · intro cats expenses uid cid now
    unfold getCategoryBudgetStatusFull
    cases hf : cats.find? (fun c => c.id == cid && c.userId == uid) with
    | none => simp
    | some c =>
      cases hj : jsFalsy c.monthlyBudget with
      | true => simp [hj]
      | false =>
        simp only [hj, Bool.false_eq_true, if_false]
        by_cases hp : 80 ≤ (if 0 < c.monthlyBudget.getD 0 then
            monthSpent expenses uid cid now / c.monthlyBudget.getD 0 * 100
          else 0) <;> simp [hp]
  · intro goals uid gid amount note now
    unfold addContribution
    cases hf : findGoal goals uid gid with
    | none => simp
    | some g =>
      dsimp only
      split
      · rename_i h
        obtain ⟨m, hm⟩ := Option.isSome_iff_exists.mp h.1
        simp [hm]
      · rename_i h
        have hn := Option.not_isSome_iff_eq_none.mp (fun hh => h ⟨hh, rfl⟩)
        simp [hn]

/-! ## C7: the month-over-month percentage change -/

/-- C7: `expenseStats.comparison.percentageChange` is 0 whenever the
last-month total is 0, regardless of the this-month total (the model is
`ℚ`-valued and total, so no Infinity or NaN can arise), and equals
`(thisMonth - lastMonth) / lastMonth * 100` when the last-month total
is nonzero. -/
theorem percentageChange_spec (expenses : List Expense) (uid : ℕ)
    (now : DateTime) :
    (lastMonthTotal expenses uid now = 0 →
      percentageChange expenses uid now = 0) ∧
    (lastMonthTotal expenses uid now ≠ 0 →
      percentageChange expenses uid now =
        (thisMonthTotal expenses uid now - lastMonthTotal expenses uid now) /
          lastMonthTotal expenses uid now * 100) := by
  unfold percentageChange
  constructor
  · intro h
    simp [h]
  · intro h
    simp [h]

/-- C7 witness: a user with one October expense of 50 and no September
expenses has a last-month total of 0, a this-month total of 50, and a
percentage change of 0 (not infinite). -/
theorem percentageChange_spec_witness :
    lastMonthTotal [⟨1, 10, 50, ⟨2026, 9, 5, 12, 0, 0, 0⟩⟩] 1
      ⟨2026, 9, 12, 10, 0, 0, 0⟩ = 0 ∧
    thisMonthTotal [⟨1, 10, 50, ⟨2026, 9, 5, 12, 0, 0, 0⟩⟩] 1
      ⟨2026, 9, 12, 10, 0, 0, 0⟩ = 50 ∧
    percentageChange [⟨1, 10, 50, ⟨2026, 9, 5, 12, 0, 0, 0⟩⟩] 1
      ⟨2026, 9, 12, 10, 0, 0, 0⟩ = 0 := by
  have hl : lastMonthTotal [⟨1, 10, 50, ⟨2026, 9, 5, 12, 0, 0, 0⟩⟩] 1
      ⟨2026, 9, 12, 10, 0, 0, 0⟩ = 0 := by
    norm_num [lastMonthTotal, startOfLastMonth, endOfLastMonth,
      DateTime.key, daysInMonth, isLeapYear]
  refine ⟨hl, ?_, (percentageChange_spec _ 1 _).1 hl⟩
  norm_num [thisMonthTotal, startOfMonth, DateTime.key]

/-! ## C8: the daily-expense series -/

/-- C8: for every user and window start, `getDailyExpenses` returns one
row per calendar day that has at least one matching expense in the
trailing window, in strictly ascending date order; each row carries the
sum and count of that day, and a day with no matching expense yields no
row (no zero-filling: row dates are exactly the days of matching
expenses). -/
theorem getDailyExpenses_spec (expenses : List Expense) (uid : ℕ)
    (start : DateTime) :
    (getDailyExpenses expenses uid start).Pairwise
      (fun a b => a.date < b.date) ∧
    (∀ r ∈ getDailyExpenses expenses uid start,
      r.total = (((expenses.filter (dayMatched uid start)).filter
          (fun e => dayKey e.date == r.date)).map (·.amount)).sum ∧
      r.count = ((expenses.filter (dayMatched uid start)).filter
          (fun e => dayKey e.date == r.date)).length ∧
      ∃ e ∈ expenses, dayMatched uid start e = true ∧
        dayKey e.date = r.date) ∧
    (∀ k : ℕ, (∃ e ∈ expenses, dayMatched uid start e = true ∧
        dayKey e.date = k) →
      ∃ r ∈ getDailyExpenses expenses uid start, r.date = k) := by
  have hperm := List.mergeSort_perm
    ((expenses.filter (dayMatched uid start)).map
      (fun e => dayKey e.date)).dedup
    (fun a b => decide (a ≤ b))
  have hnodup : (((expenses.filter (dayMatched uid start)).map
      (fun e => dayKey e.date)).dedup.mergeSort
        (fun a b => decide (a ≤ b))).Nodup :=
    hperm.symm.nodup (List.nodup_dedup _)
  have hsorted : (((expenses.filter (dayMatched uid start)).map
      (fun e => dayKey e.date)).dedup.mergeSort
        (fun a b => decide (a ≤ b))).Pairwise
      (fun a b => decide (a ≤ b) = true) :=
    List.sorted_mergeSort
      (fun a b c hab hbc => by
        simp only [decide_eq_true_eq] at *
        omega)
      (fun a b => by
        simp only [Bool.or_eq_true, decide_eq_true_eq]
        omega)
      _
  have hlt : (((expenses.filter (dayMatched uid start)).map
      (fun e => dayKey e.date)).dedup.mergeSort
        (fun a b => decide (a ≤ b))).Pairwise (· < ·) :=
    (hsorted.and hnodup).imp
      (fun h => lt_of_le_of_ne (of_decide_eq_true h.1) h.2)
  have hmem : ∀ k : ℕ,
      k ∈ ((expenses.filter (dayMatched uid start)).map
        (fun e => dayKey e.date)).dedup.mergeSort
          (fun a b => decide (a ≤ b)) ↔
      ∃ e ∈ expenses.filter (dayMatched uid start), dayKey e.date = k := by
    intro k
    rw [hperm.mem_iff, List.mem_dedup, List.mem_map]
  unfold getDailyExpenses
  refine ⟨List.pairwise_map.mpr hlt, ?_, ?_⟩
  · intro r hr
    obtain ⟨k, hk, rfl⟩ := List.mem_map.mp hr
    refine ⟨rfl, rfl, ?_⟩
    obtain ⟨e, he, hkey⟩ := (hmem k).mp hk
    rcases List.mem_filter.mp he with ⟨he1, he2⟩
    exact ⟨e, he1, he2, hkey⟩
  · rintro k ⟨e, he, hmatch, hkey⟩
    have hk : k ∈ ((expenses.filter (dayMatched uid start)).map
        (fun e => dayKey e.date)).dedup.mergeSort
          (fun a b => decide (a ≤ b)) :=
      (hmem k).mpr ⟨e, List.mem_filter.mpr ⟨he, hmatch⟩, hkey⟩
    exact ⟨_, List.mem_map_of_mem _ hk, rfl⟩

/-- C8 witness: with one matching expense on 2026-10-05, the day key of
that date is covered by a row of the output. -/
theorem getDailyExpenses_spec_witness :
    (∃ e ∈ ([⟨1, 10, 5, ⟨2026, 9, 5, 12, 0, 0, 0⟩⟩] : List Expense),
      dayMatched 1 ⟨2026, 9, 1, 0, 0, 0, 0⟩ e = true ∧
        dayKey e.date = 778277) ∧
    (∃ r ∈ getDailyExpenses [⟨1, 10, 5, ⟨2026, 9, 5, 12, 0, 0, 0⟩⟩] 1
        ⟨2026, 9, 1, 0, 0, 0, 0⟩, r.date = 778277) :=
  ⟨by decide, (getDailyExpenses_spec _ 1 _).2.2 778277 (by decide)⟩

end LifeTrack
